import Mathlib

/-!
# Verification of the tiered image-upload service (core app)

Shallow embedding of the repository's core logic:

* `core/models.py` — `Tier`, `User`, `Thumbnail`, `ExpiredLink`, `Images`
  become Lean structures; the database is explicit lists of records plus a
  fresh-id counter (the source uses UUID primary keys; the embedding uses a
  monotone `Nat` counter, which preserves identity and freshness, the only
  properties the logic relies on).
* `core/utils.py` — `validation_photo_views`, `create_img_200`,
  `create_img_200_400` become functions over an explicit `DB` state.
* `core/views.py` — `UploadImageView.post`, `ListImagesView.get`,
  `TokenView.get` become state-passing functions.  The wall clock
  (`timezone.now()`) and the random token (`generate_random_token()`) enter
  as explicit parameters.
* PIL primitives: images are modelled by their pixel dimensions together
  with the EXIF orientation tag and mode; `Image.thumbnail` is modelled by
  `thumbFit`, translated from PIL's `preserve_aspect_ratio` (exact rational
  arithmetic standing in for PIL's float arithmetic), and
  `ImageOps.exif_transpose` by `exif_transpose` (orientations 5–8 are the
  transpositions that swap width and height).
-/

/-! ## PIL image model -/

/-- A decoded PIL image, abstracted to the data the core logic inspects:
pixel dimensions, the EXIF orientation tag (1–8; 1 = upright) and the mode. -/
structure PILImg where
  width : Nat
  height : Nat
  orientation : Nat
  mode : String
deriving Repr, DecidableEq

/-- `img.convert('RGB')`: changes the mode, keeps dimensions and EXIF info. -/
def PILImg.convertRGB (img : PILImg) : PILImg :=
  { img with mode := "RGB" }

/-- `PIL.ImageOps.exif_transpose`: applies the EXIF orientation tag and
removes it.  Orientations 5–8 involve a 90° rotation and therefore swap
width and height; orientations 1–4 keep the dimensions. -/
def exif_transpose (img : PILImg) : PILImg :=
  if img.orientation = 5 ∨ img.orientation = 6 ∨ img.orientation = 7 ∨ img.orientation = 8 then
    { width := img.height, height := img.width, orientation := 1, mode := img.mode }
  else
    { img with orientation := 1 }

/-- Rounding helper of PIL's `Image.thumbnail` (`round_aspect`): the nearest
integer to `num / den`, ties resolved towards the floor (Python's `min` over
`[floor, ceil]` keeps the first argument on equal keys). -/
def roundAspect (num den : Nat) : Nat :=
  if 2 * (num % den) > den then num / den + 1 else num / den

/-- `PIL.Image.thumbnail((bw, bh))` on an image of size `w × h`, dimensions
only (translated from PIL's `preserve_aspect_ratio`; exact rational
arithmetic in place of PIL's float arithmetic):

* if the image already fits the bounding box, it is left unchanged
  (no upscaling);
* otherwise the aspect ratio is preserved: if `bw/bh ≥ w/h` the height is
  set to `bh` and the width to the rounding of `bh·w/h` (clamped to ≥ 1),
  else symmetrically. -/
def thumbFit (w h bw bh : Nat) : Nat × Nat :=
  if bw ≥ w ∧ bh ≥ h then (w, h)
  else if h * bw ≥ w * bh then
    (max (roundAspect (bh * w) h) 1, bh)
  else
    (bw, max (roundAspect (bw * h) w) 1)

/-- Dimensions of the small rendition: `img.thumbnail((img.width, 200))` —
the bounding box the source passes is (source width, 200). -/
def smallDims (w h : Nat) : Nat × Nat := thumbFit w h w 200

/-- Dimensions of the large rendition: `img.thumbnail((img.width, 400))`. -/
def largeDims (w h : Nat) : Nat × Nat := thumbFit w h w 400

/-! ## Data model (`core/models.py`) -/

/-- `core.models.Tier`: a membership tier: name plus three capability flags
(the UUID primary key plays no role in the logic and is omitted). -/
structure Tier where
  name : String
  thumbnails : Bool
  original_photo : Bool
  expiring_link : Bool
deriving Repr, DecidableEq

/-- `core.models.User`, restricted to what the views read: identity, whether
the request is anonymous, and the optional tier. -/
structure UserRec where
  id : Nat
  isAnonymous : Bool
  tier : Option Tier
deriving Repr, DecidableEq

/-- A stored rendition file: name under which it was saved and its pixel
dimensions (always JPEG-encoded by the generator). -/
structure Rendition where
  name : String
  width : Nat
  height : Nat
deriving Repr, DecidableEq

/-- `core.models.Thumbnail`: up to two stored renditions. -/
structure ThumbnailRec where
  id : Nat
  thumbnail_200 : Option Rendition
  thumbnail_400 : Option Rendition
deriving Repr, DecidableEq

/-- `core.models.ExpiredLink`: token value and absolute expiration time
(seconds on an abstract clock).  Every record the application creates has
both fields set (`views.py` line 121). -/
structure ExpiredLinkRec where
  id : Nat
  token : String
  expiration_time : Int
deriving Repr, DecidableEq

/-- `core.models.Images`: one media record. -/
structure ImagesRec where
  id : Nat
  image : Option String
  ownerId : Nat
  thumbnail : Option Nat
  expired_link : Option Nat
  expired_time : Option Int
deriving Repr, DecidableEq

/-- The persistent store: the three tables the core logic writes, plus a
fresh-id counter. -/
structure DB where
  thumbnails : List ThumbnailRec
  expiredLinks : List ExpiredLinkRec
  images : List ImagesRec
  nextId : Nat
deriving Repr, DecidableEq

/-- The declared bounds of `Images.expired_time`
(`MinValueValidator(300)`, `MaxValueValidator(30000)` in `core/models.py`). -/
def expired_time_valid (d : Int) : Bool :=
  300 ≤ d ∧ d ≤ 30000

/-! ## Requests and responses -/

/-- An uploaded file: multipart name, declared content type, decoded image. -/
structure UploadedFile where
  name : String
  contentType : String
  img : PILImg
deriving Repr, DecidableEq

/-- An HTTP request as the views read it: scheme and host (for
`build_absolute_uri`), the requesting user, the uploaded image part, and the
`expired_time` form field (already through Python's `int()` when present;
an absent field is `none`, on which `int(None)` raises `TypeError`). -/
structure Request where
  scheme : String
  host : String
  user : UserRec
  imageData : Option UploadedFile
  expiredTime : Option Int
deriving Repr, DecidableEq

/-- `request.build_absolute_uri(path)`. -/
def buildAbsoluteUri (req : Request) (path : String) : String :=
  req.scheme ++ "://" ++ req.host ++ path

/-- `reverse('token_view', args=[token])` with the route
`token/<str:token>/` of `core/urls.py`. -/
def tokenPath (tok : String) : String :=
  "/token/" ++ tok ++ "/"

/-- Retrieval URL of a stored small rendition
(`thumbnail.thumbnail_200.url` made absolute). -/
def thumb200Url (req : Request) (name : String) : String :=
  buildAbsoluteUri req ("/media/thumbnail_200/" ++ name)

/-- Retrieval URL of a stored large rendition. -/
def thumb400Url (req : Request) (name : String) : String :=
  buildAbsoluteUri req ("/media/thumbnail_400/" ++ name)

/-- Retrieval URL of a stored original. -/
def mediaUrl (req : Request) (name : String) : String :=
  buildAbsoluteUri req ("/media/" ++ name)

/-- Body of an upload response: a JSON object (list of fields) or a bare
string (the fallback branch returns a plain string body). -/
inductive HttpBody where
  | fields (kvs : List (String × String))
  | text (s : String)
deriving Repr, DecidableEq

/-- Outcome of the upload view: an HTTP response, or an uncaught Python
exception (rendered by the framework as a 500, not a view response). -/
inductive UploadResult where
  | resp (status : Nat) (body : HttpBody)
  | pyError (msg : String)
deriving Repr, DecidableEq

/-! ## `core/utils.py` -/

/-- `core.utils.validation_photo_views`: the four validation checks, in
source order; `none` means validation passed. -/
def validation_photo_views (user : UserRec) (image_data : Option UploadedFile) :
    Option (Nat × String) :=
  if user.isAnonymous = true then
    some (400, "Cannot Add data.")
  else
    match image_data with
    | none => some (400, "Image data not provided.")
    | some f =>
      if user.tier = none then
        some (400, "User does not have a valid tier.")
      else if f.contentType = "image/jpeg" ∨ f.contentType = "image/png" then
        none
      else
        some (400, "Invalid image format. Use jpg or png.")

/-- `core.utils.create_img_200`: converts to RGB, applies
`exif_transpose`, fits into `(width, 200)`, saves the JPEG rendition under
a fresh `Thumbnail` record and returns it with its absolute URL. -/
def create_img_200 (image_name : String) (img : PILImg) (req : Request) (db : DB) :
    ThumbnailRec × String × DB :=
  let img1 := exif_transpose img.convertRGB
  let dims := smallDims img1.width img1.height
  let thumb : ThumbnailRec :=
    { id := db.nextId
      thumbnail_200 := some { name := image_name, width := dims.1, height := dims.2 }
      thumbnail_400 := none }
  (thumb, thumb200Url req image_name,
    { db with thumbnails := db.thumbnails ++ [thumb], nextId := db.nextId + 1 })

/-- `core.utils.create_img_200_400`: fits copies of the (caller-normalized)
image into `(width, 200)` and `(width, 400)`, saves both JPEG renditions
under a fresh `Thumbnail` record and returns it with both absolute URLs. -/
def create_img_200_400 (image_name : String) (img : PILImg) (req : Request) (db : DB) :
    ThumbnailRec × String × String × DB :=
  let d200 := smallDims img.width img.height
  let d400 := largeDims img.width img.height
  let thumb : ThumbnailRec :=
    { id := db.nextId
      thumbnail_200 := some { name := image_name, width := d200.1, height := d200.2 }
      thumbnail_400 := some { name := image_name, width := d400.1, height := d400.2 } }
  (thumb, thumb200Url req image_name, thumb400Url req image_name,
    { db with thumbnails := db.thumbnails ++ [thumb], nextId := db.nextId + 1 })

/-! ## `core/views.py` -/

/-- `UploadImageView.post`.  `now` is `timezone.now()` on an abstract
seconds clock; `tok` is the value produced by `generate_random_token()`
(the random source enters as a parameter).  Returns the outcome together
with the resulting store; branches that return before writing leave the
store unchanged, exactly as the source performs no ORM write there. -/
def upload (db : DB) (req : Request) (now : Int) (tok : String) : UploadResult × DB :=
  let user := req.user
  match validation_photo_views user req.imageData with
  | some (s, msg) => (.resp s (.fields [("error", msg)]), db)
  | none =>
    match req.imageData with
    | none => (.pyError "KeyError: image", db)
    | some file =>
      let user_tier : Option String := user.tier.map Tier.name
      if user_tier = some "Basic" then
        let r := create_img_200 file.name file.img req db
        let media : ImagesRec :=
          { id := r.2.2.nextId, image := none, ownerId := user.id
            thumbnail := some r.1.id, expired_link := none, expired_time := none }
        (.resp 201 (.fields
            [("id", toString media.id),
             ("thumbnail_link", r.2.1),
             ("owner", toString user.id)]),
         { r.2.2 with images := r.2.2.images ++ [media], nextId := r.2.2.nextId + 1 })
      else if user_tier = some "Premium" then
        let img1 := exif_transpose file.img.convertRGB
        let r := create_img_200_400 file.name img1 req db
        let db1 := r.2.2.2
        let media : ImagesRec :=
          { id := db1.nextId, image := some file.name, ownerId := user.id
            thumbnail := some r.1.id, expired_link := none, expired_time := none }
        (.resp 201 (.fields
            [("id", toString media.id),
             ("image", mediaUrl req file.name),
             ("thumbnail_link_200", r.2.1),
             ("thumbnail_link_400", r.2.2.1),
             ("owner", toString user.id)]),
         { db1 with images := db1.images ++ [media], nextId := db1.nextId + 1 })
      else if user_tier = some "Enterprise" then
        match req.expiredTime with
        | none =>
          -- `int(None)` at `timedelta(seconds=int(expired_time))`
          (.pyError "TypeError: int() argument must be a string or a number, not NoneType", db)
        | some d =>
          let expiration_time := now + d
          let img1 := exif_transpose file.img.convertRGB
          let r := create_img_200_400 file.name img1 req db
          let db1 := r.2.2.2
          let lrec : ExpiredLinkRec :=
            { id := db1.nextId, token := tok, expiration_time := expiration_time }
          let db2 := { db1 with expiredLinks := db1.expiredLinks ++ [lrec], nextId := db1.nextId + 1 }
          let media : ImagesRec :=
            { id := db2.nextId, image := some file.name, ownerId := user.id
              thumbnail := some r.1.id, expired_link := some lrec.id, expired_time := some d }
          let complete_url := buildAbsoluteUri req "/" ++ tokenPath tok
          (.resp 201 (.fields
              [("id", toString media.id),
               ("image", mediaUrl req file.name),
               ("thumbnail_link_200", r.2.1),
               ("thumbnail_link_400", r.2.2.1),
               ("expired_link", complete_url),
               ("owner", toString user.id)]),
           { db2 with images := db2.images ++ [media], nextId := db2.nextId + 1 })
      else
        (.resp 400 (.text "Expired time is not provided for this image."), db)

/-- `ListImagesView.get`: 403 when unauthenticated, else one projection per
owned record.  Every projection carries the same six keys; a value is
`none` where the source serializes `None`. -/
def listImages (db : DB) (req : Request) : Nat × List (List (String × Option String)) :=
  if req.user.isAnonymous = true then (403, [])
  else
    let images := db.images.filter (fun i => i.ownerId = req.user.id)
    (200, images.map (fun img =>
      let complete_url :=
        match img.expired_link with
        | none => none
        | some lid =>
          match db.expiredLinks.find? (fun l => l.id = lid) with
          | none => none
          | some l => some (buildAbsoluteUri req (tokenPath l.token))
      let th := img.thumbnail.bind (fun tid => db.thumbnails.find? (fun t => t.id = tid))
      let t200 :=
        match th with
        | some t => t.thumbnail_200.map (fun r => thumb200Url req r.name)
        | none => none
      let t400 :=
        match th with
        | some t => t.thumbnail_400.map (fun r => thumb400Url req r.name)
        | none => none
      [("id", some (toString img.id)),
       ("image", img.image.map (fun n => mediaUrl req n)),
       ("thumbnail_200", t200),
       ("thumbnail_400", t400),
       ("expired_link", complete_url),
       ("owner", some (toString img.ownerId))]))

/-- Outcome of `TokenView.get`. -/
inductive TokenResult where
  | notFound
  | expired
  | noImage
  | file (mediaId : Nat) (name : String)
  | pyError (msg : String)
deriving Repr, DecidableEq

/-- `TokenView.get`: `get_object_or_404(ExpiredLink, token=token)`, then the
expiry check against the resolution-time clock, then the first bound media
record, then the file stream.  The view performs no ORM write, so the store
is returned unchanged. -/
def tokenGet (db : DB) (token : String) (now : Int) : TokenResult × DB :=
  match db.expiredLinks.find? (fun l => l.token = token) with
  | none => (.notFound, db)
  | some expired_link =>
    if expired_link.expiration_time < now then (.expired, db)
    else
      match db.images.find? (fun i => i.expired_link = some expired_link.id) with
      | none => (.noImage, db)
      | some image =>
        match image.image with
        | none => (.pyError "ValueError: The image attribute has no file associated with it", db)
        | some name => (.file image.id name, db)

/-- Projection of the HTTP status of an upload outcome (`none` for an
uncaught exception, which the framework turns into a 500). -/
def UploadResult.status : UploadResult → Option Nat
  | .resp s _ => some s
  | .pyError _ => none

/-- The upload view's accepted content types
(`['image/jpeg', 'image/png']` in `validation_photo_views`). -/
def acceptedFormat (f : UploadedFile) : Prop :=
  f.contentType = "image/jpeg" ∨ f.contentType = "image/png"

/-! ## Concrete fixtures (used by witnesses and counterexamples) -/

/-- An empty store. -/
def emptyDB : DB := { thumbnails := [], expiredLinks := [], images := [], nextId := 0 }

/-- The seeded `Basic` tier (`core/signals.py`). -/
def seedBasic : Tier :=
  { name := "Basic", thumbnails := false, original_photo := false, expiring_link := false }

/-- The seeded `Premium` tier (`core/signals.py`). -/
def seedPremium : Tier :=
  { name := "Premium", thumbnails := true, original_photo := true, expiring_link := false }

/-- The seeded `Enterprise` tier (`core/signals.py`). -/
def seedEnterprise : Tier :=
  { name := "Enterprise", thumbnails := true, original_photo := true, expiring_link := true }

/-- A plain upright 640×480 JPEG upload. -/
def sampleJpeg : UploadedFile :=
  { name := "a.jpg", contentType := "image/jpeg"
    img := { width := 640, height := 480, orientation := 1, mode := "RGB" } }

/-- A request fixture builder: scheme and host fixed, the rest explicit. -/
def reqOf (u : UserRec) (f : Option UploadedFile) (et : Option Int) : Request :=
  { scheme := "http", host := "testserver", user := u, imageData := f, expiredTime := et }

/-! ## Arithmetic facts about the thumbnail fit -/

/-- `roundAspect num den` is the nearest integer to `num / den` up to a tie:
its product with `den` is within `den / 2` of `num`. -/
theorem roundAspect_near (num den : Nat) (hd : 1 ≤ den) :
    2 * (roundAspect num den * den) ≤ 2 * num + den ∧
      2 * num ≤ 2 * (roundAspect num den * den) + den := by
  have h : num / den * den + num % den = num := Nat.div_add_mod' num den
  have hm : num % den < den := Nat.mod_lt num (by omega)
  unfold roundAspect
  split <;> rename_i hc
  · rw [Nat.add_mul, Nat.one_mul]
    generalize num / den * den = A at h ⊢
    omega
  · generalize num / den * den = A at h ⊢
    omega

/-- When the height strictly exceeds the cap, the rounded width never
exceeds the source width (the fit never upscales). -/
theorem roundAspect_le_width (w h cap : Nat) (hw : 1 ≤ w) (hcap : cap < h) :
    roundAspect (cap * w) h ≤ w := by
  have hh : 0 < h := by omega
  have hlt : cap * w / h < w := by
    rw [Nat.div_lt_iff_lt_mul hh]
    calc cap * w < h * w := by
          exact Nat.mul_lt_mul_of_lt_of_le hcap (Nat.le_refl w) (by omega)
      _ = w * h := Nat.mul_comm h w
  unfold roundAspect
  split
  · exact Nat.succ_le_of_lt hlt
  · exact Nat.le_of_lt hlt

/-- A source that already fits the height cap is kept unchanged:
`thumbnail((w, cap))` with `h ≤ cap` does nothing. -/
theorem thumbFit_keep (w h cap : Nat) (hh : h ≤ cap) : thumbFit w h w cap = (w, h) := by
  unfold thumbFit
  rw [if_pos ⟨Nat.le_refl w, hh⟩]

/-- A source taller than the cap is scaled to height exactly `cap`, with
width the clamped rounding of `cap·w/h`. -/
theorem thumbFit_scale (w h cap : Nat) (hcap : cap < h) :
    thumbFit w h w cap = (max (roundAspect (cap * w) h) 1, cap) := by
  unfold thumbFit
  rw [if_neg, if_pos]
  · calc w * cap ≤ w * h := Nat.mul_le_mul_left w (by omega)
      _ = h * w := Nat.mul_comm w h
  · rintro ⟨-, h2⟩
    omega

/-! ## C1 — token resolution -/

/-- C1: token resolution is a three-way outcome with a fixed check order:
an unknown token value yields `notFound` (404), never `expired`; a known
token whose `expiration_time` is strictly before the resolution-time clock
yields `expired` (400) with the record retained (store unchanged);
otherwise the bound media is served.  Existence precedes expiry. -/
theorem token_resolution_three_way (db : DB) (tok : String) (now : Int) :
    (db.expiredLinks.find? (fun l => l.token = tok) = none →
      tokenGet db tok now = (.notFound, db)) ∧
    (∀ l, db.expiredLinks.find? (fun l => l.token = tok) = some l →
      l.expiration_time < now → tokenGet db tok now = (.expired, db)) ∧
    (∀ l m f, db.expiredLinks.find? (fun l => l.token = tok) = some l →
      ¬ l.expiration_time < now →
      db.images.find? (fun i => i.expired_link = some l.id) = some m →
      m.image = some f → tokenGet db tok now = (.file m.id f, db)) := by
  refine ⟨fun h => ?_, fun l hl hexp => ?_, fun l m f hl hexp hm hf => ?_⟩
  · unfold tokenGet
    rw [h]
  · unfold tokenGet
    rw [hl]
    simp [if_pos hexp]
  · unfold tokenGet
    rw [hl]
    simp [if_neg hexp, hm, hf]

/-- Store fixture for the C1 witness: one expired link (`t1`, expires at
10), one live link (`t2`, expires at 100) bound to media 5. -/
def dbC1 : DB :=
  { thumbnails := []
    expiredLinks := [⟨0, "t1", 10⟩, ⟨1, "t2", 100⟩]
    images := [⟨5, some "f.jpg", 9, none, some 1, some 300⟩]
    nextId := 6 }

/-- Witness for `token_resolution_three_way` at the clock value 50: an
unknown token is 404, `t1` (expired at 10) is the expired error with the
store retained, `t2` (expires at 100) streams the bound media. -/
theorem token_resolution_three_way_witness :
    tokenGet dbC1 "zz" 50 = (.notFound, dbC1) ∧
    tokenGet dbC1 "t1" 50 = (.expired, dbC1) ∧
    tokenGet dbC1 "t2" 50 = (.file 5 "f.jpg", dbC1) :=
  ⟨(token_resolution_three_way dbC1 "zz" 50).1 (by decide),
   (token_resolution_three_way dbC1 "t1" 50).2.1 ⟨0, "t1", 10⟩ (by decide) (by decide),
   (token_resolution_three_way dbC1 "t2" 50).2.2 ⟨1, "t2", 100⟩
     ⟨5, some "f.jpg", 9, none, some 1, some 300⟩ "f.jpg"
     (by decide) (by decide) (by decide) rfl⟩

/-! ## C5 — rendition dimensions -/

/-- C5 counterexample: the 1000×100 source has long edge 1000 ≥ 200, yet
its small rendition is 1000×100 — the long edge is 1000, far above the
claimed cap of 200 (the bounding box `(img.width, 200)` caps only the
height). -/
theorem small_rendition_long_edge_not_capped :
    smallDims 1000 100 = (1000, 100) ∧
    200 ≤ max 1000 100 ∧
    200 < max (smallDims 1000 100).1 (smallDims 1000 100).2 := by decide

/-- The fit never upscales: both output dimensions are bounded by the
source dimensions. -/
theorem thumbFit_no_upscale (w h cap : Nat) (hw : 1 ≤ w) :
    (thumbFit w h w cap).1 ≤ w ∧ (thumbFit w h w cap).2 ≤ h := by
  by_cases hc : h ≤ cap
  · rw [thumbFit_keep w h cap hc]
    exact ⟨Nat.le_refl w, Nat.le_refl h⟩
  · push_neg at hc
    rw [thumbFit_scale w h cap hc]
    exact ⟨max_le (roundAspect_le_width w h cap hw hc) hw, Nat.le_of_lt hc⟩

/-- C5 amended: for every decodable source (w, h ≥ 1), each rendition is
produced by fitting into the bounding box (source width, cap): the HEIGHT
(not the long edge) is capped — a source with height ≤ cap is kept at its
original dimensions (no upscaling), a taller source gets height exactly
200 (resp. 400) with the width the clamped rounding of the proportional
value cap·w/h (aspect ratio preserved within rounding), and neither output
dimension ever exceeds the source's. -/
theorem rendition_height_capped (w h : Nat) (hw : 1 ≤ w) (hh : 1 ≤ h) :
    (h ≤ 200 → smallDims w h = (w, h)) ∧
    (200 < h → smallDims w h = (max (roundAspect (200 * w) h) 1, 200) ∧
      2 * (roundAspect (200 * w) h * h) ≤ 2 * (200 * w) + h ∧
      2 * (200 * w) ≤ 2 * (roundAspect (200 * w) h * h) + h) ∧
    (smallDims w h).1 ≤ w ∧ (smallDims w h).2 ≤ h ∧
    (h ≤ 400 → largeDims w h = (w, h)) ∧
    (400 < h → largeDims w h = (max (roundAspect (400 * w) h) 1, 400) ∧
      2 * (roundAspect (400 * w) h * h) ≤ 2 * (400 * w) + h ∧
      2 * (400 * w) ≤ 2 * (roundAspect (400 * w) h * h) + h) ∧
    (largeDims w h).1 ≤ w ∧ (largeDims w h).2 ≤ h := by
  refine ⟨fun hc => thumbFit_keep w h 200 hc,
    fun hc => ⟨thumbFit_scale w h 200 hc, ?_, ?_⟩,
    (thumbFit_no_upscale w h 200 hw).1, (thumbFit_no_upscale w h 200 hw).2,
    fun hc => thumbFit_keep w h 400 hc,
    fun hc => ⟨thumbFit_scale w h 400 hc, ?_, ?_⟩,
    (thumbFit_no_upscale w h 400 hw).1, (thumbFit_no_upscale w h 400 hw).2⟩
  · exact (roundAspect_near (200 * w) h hh).1
  · exact (roundAspect_near (200 * w) h hh).2
  · exact (roundAspect_near (400 * w) h hh).1
  · exact (roundAspect_near (400 * w) h hh).2

/-- Witness for `rendition_height_capped` on the 640×480 source: height
480 exceeds both caps, so the renditions are 267×200 and 533×400. -/
theorem rendition_height_capped_witness :
    smallDims 640 480 = (max (roundAspect (200 * 640) 480) 1, 200) ∧
    largeDims 640 480 = (max (roundAspect (400 * 640) 480) 1, 400) ∧
    smallDims 640 480 = (267, 200) ∧ largeDims 640 480 = (533, 400) :=
  ⟨((rendition_height_capped 640 480 (by decide) (by decide)).2.1 (by decide)).1,
   ((rendition_height_capped 640 480 (by decide) (by decide)).2.2.2.2.2.1 (by decide)).1,
   by decide, by decide⟩

/-! ## C7 — Basic-tier upload response -/

/-- C7: a valid upload by a Basic-tier user returns 201 whose field set is
exactly id, thumbnail_link, owner — no original-image and no
expiry-duration field — and the stored Media has no original but carries a
small derivative. -/
theorem basic_upload_response (db : DB) (req : Request) (now : Int) (tok : String)
    (file : UploadedFile) (t : Tier)
    (hA : req.user.isAnonymous = false) (hI : req.imageData = some file)
    (hF : acceptedFormat file) (hT : req.user.tier = some t)
    (hN : t.name = "Basic") :
    (upload db req now tok).1 = .resp 201 (.fields
      [("id", toString (db.nextId + 1)),
       ("thumbnail_link", thumb200Url req file.name),
       ("owner", toString req.user.id)]) ∧
    (upload db req now tok).2.images = db.images ++
      [{ id := db.nextId + 1, image := none, ownerId := req.user.id
         thumbnail := some db.nextId, expired_link := none, expired_time := none }] := by
  have hF' : file.contentType = "image/jpeg" ∨ file.contentType = "image/png" := hF
  simp [upload, validation_photo_views, create_img_200, hA, hI, hT, hN, hF']

/-- Request fixture for the C7 witness: Basic-tier user 7, plain JPEG. -/
def reqC7 : Request := reqOf ⟨7, false, some seedBasic⟩ (some sampleJpeg) none

/-- Witness for `basic_upload_response`: the concrete Basic upload. -/
theorem basic_upload_response_witness :
    (upload emptyDB reqC7 0 "tk").1 = .resp 201 (.fields
      [("id", toString (emptyDB.nextId + 1)),
       ("thumbnail_link", thumb200Url reqC7 sampleJpeg.name),
       ("owner", toString reqC7.user.id)]) ∧
    (upload emptyDB reqC7 0 "tk").2.images = emptyDB.images ++
      [{ id := emptyDB.nextId + 1, image := none, ownerId := reqC7.user.id
         thumbnail := some emptyDB.nextId, expired_link := none, expired_time := none }] :=
  basic_upload_response emptyDB reqC7 0 "tk" sampleJpeg seedBasic rfl rfl (Or.inl rfl) rfl rfl

/-! ## C2 — Enterprise token issuance -/

/-- C2: an Enterprise-tier upload that supplies a duration `d` issues a
token record whose expiration equals the issuance-time clock plus `d`, and
the 201 response carries the fully qualified resolution URL (scheme, host,
and the `token/<value>/` route) for that token. -/
theorem enterprise_upload_token_expiry (db : DB) (req : Request) (now : Int) (tok : String)
    (file : UploadedFile) (t : Tier) (d : Int)
    (hA : req.user.isAnonymous = false) (hI : req.imageData = some file)
    (hF : acceptedFormat file) (hT : req.user.tier = some t)
    (hN : t.name = "Enterprise") (hD : req.expiredTime = some d) :
    (upload db req now tok).1 = .resp 201 (.fields
      [("id", toString (db.nextId + 2)),
       ("image", mediaUrl req file.name),
       ("thumbnail_link_200", thumb200Url req file.name),
       ("thumbnail_link_400", thumb400Url req file.name),
       ("expired_link", buildAbsoluteUri req "/" ++ tokenPath tok),
       ("owner", toString req.user.id)]) ∧
    (upload db req now tok).2.expiredLinks = db.expiredLinks ++
      [{ id := db.nextId + 1, token := tok, expiration_time := now + d }] := by
  have hF' : file.contentType = "image/jpeg" ∨ file.contentType = "image/png" := hF
  simp [upload, validation_photo_views, create_img_200_400, hA, hI, hT, hN, hF', hD]

/-- Request fixture for the C2 witness: Enterprise-tier user 9, JPEG,
duration 3600. -/
def reqC2 : Request := reqOf ⟨9, false, some seedEnterprise⟩ (some sampleJpeg) (some 3600)

/-- Witness for `enterprise_upload_token_expiry`: at clock 50 with
duration 3600 the stored link expires at 3650 and the response's
`expired_link` is the absolute token URL. -/
theorem enterprise_upload_token_expiry_witness :
    (upload emptyDB reqC2 50 "tk").1 = .resp 201 (.fields
      [("id", toString (emptyDB.nextId + 2)),
       ("image", mediaUrl reqC2 sampleJpeg.name),
       ("thumbnail_link_200", thumb200Url reqC2 sampleJpeg.name),
       ("thumbnail_link_400", thumb400Url reqC2 sampleJpeg.name),
       ("expired_link", buildAbsoluteUri reqC2 "/" ++ tokenPath "tk"),
       ("owner", toString reqC2.user.id)]) ∧
    (upload emptyDB reqC2 50 "tk").2.expiredLinks = emptyDB.expiredLinks ++
      [{ id := emptyDB.nextId + 1, token := "tk", expiration_time := 50 + 3600 }] :=
  enterprise_upload_token_expiry emptyDB reqC2 50 "tk" sampleJpeg seedEnterprise 3600
    rfl rfl (Or.inl rfl) rfl rfl rfl

/-! ## C3 — missing duration on the Enterprise branch -/

/-- C3: an Enterprise-tier upload with no `expired_time` field does not
produce the claimed `MissingDuration` 400 validation response: the view
evaluates `int(None)` inside `timedelta(seconds=int(expired_time))` and
raises `TypeError` — an uncaught exception (HTTP 500), with no record
created.  The concrete failing input: authenticated Enterprise user, valid
JPEG, no duration. -/
theorem enterprise_missing_duration_crashes :
    upload emptyDB (reqOf ⟨9, false, some seedEnterprise⟩ (some sampleJpeg) none) 50 "tk" =
      (.pyError "TypeError: int() argument must be a string or a number, not NoneType", emptyDB) ∧
    (reqOf ⟨9, false, some seedEnterprise⟩ (some sampleJpeg) none).expiredTime = none ∧
    seedEnterprise.name = "Enterprise" ∧ seedEnterprise.expiring_link = true := by
  refine ⟨rfl, rfl, rfl, rfl⟩

/-! ## C4 — token presence is keyed on the tier name, not the flag -/

/-- A tier whose name is `Enterprise` but whose `expiring_link` capability
flag is false (tiers are ordinary editable records; nothing ties the name
to the flags). -/
def tierEntNoLink : Tier :=
  { name := "Enterprise", thumbnails := false, original_photo := false, expiring_link := false }

/-- Request fixture for the C4 counterexample: a user whose tier is named
`Enterprise` with `expiring_link = false`, uploading with duration 300. -/
def reqC4 : Request := reqOf ⟨3, false, some tierEntNoLink⟩ (some sampleJpeg) (some 300)

/-- C4 counterexample: an upload by a user whose tier does NOT grant the
expiring-link capability (flag false) nevertheless creates a Media bound
to a freshly issued token, because the branch dispatches on the tier's
name `Enterprise`.  This falsifies "no expiring-link capability → no
Token". -/
theorem token_issued_without_capability :
    (upload emptyDB reqC4 0 "tk").2.images.map ImagesRec.expired_link = [some 1] ∧
    (upload emptyDB reqC4 0 "tk").2.expiredLinks.map ExpiredLinkRec.token = ["tk"] ∧
    reqC4.user.tier.map Tier.expiring_link = some false ∧
    (upload emptyDB reqC4 0 "tk").1.status = some 201 := by
  refine ⟨rfl, rfl, rfl, rfl⟩

/-- C4 amended: a successfully created Media carries a Token iff the
owner's tier is NAMED `Enterprise` and a duration was supplied — the
capability flag is never consulted.  Uploads under the names `Basic` and
`Premium` create a token-less Media regardless of a supplied duration;
the `Enterprise` name with no duration crashes before any write; any
other name writes nothing. -/
theorem token_iff_enterprise_name (db : DB) (req : Request) (now : Int) (tok : String)
    (file : UploadedFile) (t : Tier)
    (hA : req.user.isAnonymous = false) (hI : req.imageData = some file)
    (hF : acceptedFormat file) (hT : req.user.tier = some t) :
    ((t.name = "Basic" ∨ t.name = "Premium") →
      ∃ m, (upload db req now tok).2.images = db.images ++ [m] ∧ m.expired_link = none) ∧
    (t.name = "Enterprise" → ∀ d, req.expiredTime = some d →
      ∃ m, (upload db req now tok).2.images = db.images ++ [m] ∧
        m.expired_link = some (db.nextId + 1)) ∧
    (t.name = "Enterprise" → req.expiredTime = none → (upload db req now tok).2 = db) ∧
    (t.name ≠ "Basic" → t.name ≠ "Premium" → t.name ≠ "Enterprise" →
      (upload db req now tok).2 = db) := by
  have hF' : file.contentType = "image/jpeg" ∨ file.contentType = "image/png" := hF
  refine ⟨fun hN => ?_, fun hN d hD => ?_, fun hN hD => ?_, fun hB hP hE => ?_⟩
  · rcases hN with hN | hN
    · refine ⟨{ id := db.nextId + 1, image := none, ownerId := req.user.id,
                thumbnail := some db.nextId, expired_link := none, expired_time := none }, ?_, rfl⟩
      simp [upload, validation_photo_views, create_img_200, hA, hI, hT, hN, hF']
    · refine ⟨{ id := db.nextId + 1, image := some file.name, ownerId := req.user.id,
                thumbnail := some db.nextId, expired_link := none, expired_time := none }, ?_, rfl⟩
      simp [upload, validation_photo_views, create_img_200_400, hA, hI, hT, hN, hF']
  · refine ⟨{ id := db.nextId + 2, image := some file.name, ownerId := req.user.id,
              thumbnail := some db.nextId, expired_link := some (db.nextId + 1),
              expired_time := some d }, ?_, rfl⟩
    simp [upload, validation_photo_views, create_img_200_400, hA, hI, hT, hN, hF', hD]
  · simp [upload, validation_photo_views, hA, hI, hT, hN, hF', hD]
  · simp [upload, validation_photo_views, hA, hI, hT, hF', hB, hP, hE]

/-- Witness for `token_iff_enterprise_name`: a Basic-tier upload WITH a
supplied duration still stores no token, and a seeded-Enterprise upload
with duration 3600 stores one. -/
theorem token_iff_enterprise_name_witness :
    (∃ m, (upload emptyDB (reqOf ⟨7, false, some seedBasic⟩ (some sampleJpeg) (some 3600)) 0 "tk").2.images
        = emptyDB.images ++ [m] ∧ m.expired_link = none) ∧
    (∃ m, (upload emptyDB reqC2 7 "tk").2.images = emptyDB.images ++ [m] ∧
        m.expired_link = some (emptyDB.nextId + 1)) :=
  ⟨(token_iff_enterprise_name emptyDB (reqOf ⟨7, false, some seedBasic⟩ (some sampleJpeg) (some 3600))
      0 "tk" sampleJpeg seedBasic rfl rfl (Or.inl rfl) rfl).1 (Or.inl rfl),
   (token_iff_enterprise_name emptyDB reqC2 7 "tk" sampleJpeg seedEnterprise
      rfl rfl (Or.inl rfl) rfl).2.1 rfl 3600 rfl⟩

/-! ## C6 — orientation normalization before resizing -/

/-- The Basic-path small rendition as claim C6 describes it: resized
directly from the raw source WITHOUT applying the EXIF orientation first.
This definition follows the claim's words, for comparison against the
source-translated `create_img_200`. -/
def basicSmallClaimed (img : PILImg) : Nat × Nat :=
  smallDims img.width img.height

/-- A 300×100 image carrying EXIF orientation 6 (90° rotation: the upright
rendering is 100×300). -/
def orientedImg : PILImg := { width := 300, height := 100, orientation := 6, mode := "RGB" }

/-- C6 counterexample: on the Basic path, `create_img_200` DOES normalize
orientation before resizing (`utils.py` line 113): the oriented 300×100
source yields a 67×200 small rendition, whereas the claimed
skip-normalization behavior would keep 300×100.  This falsifies "the small
rendition is normalized only when a large rendition is also requested". -/
theorem basic_path_normalization_refutes_claim :
    (create_img_200 "o.jpg" orientedImg (reqOf ⟨7, false, some seedBasic⟩ none none) emptyDB).1.thumbnail_200 =
      some { name := "o.jpg", width := 67, height := 200 } ∧
    basicSmallClaimed orientedImg = (300, 100) ∧
    decide ((67, 200) = ((300 : Nat), (100 : Nat))) = false := by
  refine ⟨rfl, rfl, rfl⟩

/-- Normalize-then-resize: the small-rendition dimensions of the upright
(EXIF-applied, RGB-converted) source. -/
def normSmall (img : PILImg) : Nat × Nat :=
  smallDims (exif_transpose img.convertRGB).width (exif_transpose img.convertRGB).height

/-- Normalize-then-resize for the large rendition. -/
def normLarge (img : PILImg) : Nat × Nat :=
  largeDims (exif_transpose img.convertRGB).width (exif_transpose img.convertRGB).height

/-- C6 amended: orientation normalization happens before resizing on EVERY
upload path — the Basic path normalizes inside `create_img_200` just as
the Premium and Enterprise paths normalize before `create_img_200_400`:
each stored rendition has the dimensions of the normalized source fitted
to its cap. -/
theorem normalize_before_resize_all_paths (db : DB) (req : Request) (now : Int) (tok : String)
    (file : UploadedFile) (t : Tier)
    (hA : req.user.isAnonymous = false) (hI : req.imageData = some file)
    (hF : acceptedFormat file) (hT : req.user.tier = some t) :
    (t.name = "Basic" →
      ∃ th, (upload db req now tok).2.thumbnails = db.thumbnails ++ [th] ∧
        th.thumbnail_200 = some { name := file.name, width := (normSmall file.img).1
                                  height := (normSmall file.img).2 }) ∧
    (t.name = "Premium" →
      ∃ th, (upload db req now tok).2.thumbnails = db.thumbnails ++ [th] ∧
        th.thumbnail_200 = some { name := file.name, width := (normSmall file.img).1
                                  height := (normSmall file.img).2 } ∧
        th.thumbnail_400 = some { name := file.name, width := (normLarge file.img).1
                                  height := (normLarge file.img).2 }) ∧
    (t.name = "Enterprise" → ∀ d, req.expiredTime = some d →
      ∃ th, (upload db req now tok).2.thumbnails = db.thumbnails ++ [th] ∧
        th.thumbnail_200 = some { name := file.name, width := (normSmall file.img).1
                                  height := (normSmall file.img).2 } ∧
        th.thumbnail_400 = some { name := file.name, width := (normLarge file.img).1
                                  height := (normLarge file.img).2 }) := by
  have hF' : file.contentType = "image/jpeg" ∨ file.contentType = "image/png" := hF
  refine ⟨fun hN => ?_, fun hN => ?_, fun hN d hD => ?_⟩
  · refine ⟨{ id := db.nextId,
              thumbnail_200 := some { name := file.name, width := (normSmall file.img).1,
                                      height := (normSmall file.img).2 },
              thumbnail_400 := none }, ?_, rfl⟩
    simp [upload, validation_photo_views, create_img_200, normSmall, hA, hI, hT, hN, hF']
  · refine ⟨{ id := db.nextId,
              thumbnail_200 := some { name := file.name, width := (normSmall file.img).1,
                                      height := (normSmall file.img).2 },
              thumbnail_400 := some { name := file.name, width := (normLarge file.img).1,
                                      height := (normLarge file.img).2 } }, ?_, rfl, rfl⟩
    simp [upload, validation_photo_views, create_img_200_400, normSmall, normLarge,
      hA, hI, hT, hN, hF']
  · refine ⟨{ id := db.nextId,
              thumbnail_200 := some { name := file.name, width := (normSmall file.img).1,
                                      height := (normSmall file.img).2 },
              thumbnail_400 := some { name := file.name, width := (normLarge file.img).1,
                                      height := (normLarge file.img).2 } }, ?_, rfl, rfl⟩
    simp [upload, validation_photo_views, create_img_200_400, normSmall, normLarge,
      hA, hI, hT, hN, hF', hD]

/-- Request fixture for the C6 witness: Basic-tier user uploads the
oriented 300×100 image. -/
def reqC6 : Request :=
  reqOf ⟨7, false, some seedBasic⟩ (some ⟨"o.jpg", "image/jpeg", orientedImg⟩) none

/-- Witness for `normalize_before_resize_all_paths`: the Basic upload of
the oriented image stores a normalized 67×200 small rendition. -/
theorem normalize_before_resize_all_paths_witness :
    (∃ th, (upload emptyDB reqC6 0 "tk").2.thumbnails = emptyDB.thumbnails ++ [th] ∧
      th.thumbnail_200 = some { name := "o.jpg", width := (normSmall orientedImg).1,
                                height := (normSmall orientedImg).2 }) ∧
    (normSmall orientedImg = (67, 200)) :=
  ⟨(normalize_before_resize_all_paths emptyDB reqC6 0 "tk"
      ⟨"o.jpg", "image/jpeg", orientedImg⟩ seedBasic rfl rfl (Or.inl rfl) rfl).1 rfl,
   by decide⟩

/-! ## C8 — listing projection ignores the viewer's tier -/

/-- Store fixture for C8: one media record (id 3) owned by user 7 with a
stored original and no thumbnail or link. -/
def dbC8 : DB :=
  { thumbnails := [], expiredLinks := []
    images := [⟨3, some "pic.jpg", 7, none, none, none⟩], nextId := 4 }

/-- Request fixture for C8: the owner, user 7, whose tier
(`Basic` seed) has `original_photo = false`. -/
def reqC8 : Request := reqOf ⟨7, false, some seedBasic⟩ none none

/-- C8 counterexample: a viewer whose tier has the original-retention flag
false still receives both the original image link and the owner reference
for every listed record — the listing builds the same six-field projection
for every viewer and never consults the tier.  This falsifies "viewers
whose tier lacks that flag see neither field". -/
theorem listing_exposes_original_and_owner :
    (listImages dbC8 reqC8).2 =
      [[("id", some "3"),
        ("image", some "http://testserver/media/pic.jpg"),
        ("thumbnail_200", none),
        ("thumbnail_400", none),
        ("expired_link", none),
        ("owner", some "7")]] ∧
    reqC8.user.tier.map Tier.original_photo = some false := by
  refine ⟨rfl, rfl⟩

/-- C8 amended: the authenticated listing returns 200 and builds, for
every owned record, a projection with exactly the six keys id, image,
thumbnail_200, thumbnail_400, expired_link, owner — in particular the
original image link and the owner reference are present for EVERY viewer —
and the result is invariant under any change of the viewer's tier. -/
theorem listing_ignores_viewer_tier (db : DB) (req : Request)
    (hA : req.user.isAnonymous = false) :
    (listImages db req).1 = 200 ∧
    (∀ row ∈ (listImages db req).2,
      row.map Prod.fst =
        ["id", "image", "thumbnail_200", "thumbnail_400", "expired_link", "owner"]) ∧
    (∀ t, listImages db { req with user := { req.user with tier := t } } =
      listImages db req) := by
  refine ⟨?_, ?_, fun t => rfl⟩
  · simp [listImages, hA]
  · intro row hrow
    simp only [listImages, hA, Bool.false_eq_true, if_false, List.mem_map] at hrow
    obtain ⟨img, -, rfl⟩ := hrow
    rfl

/-- Witness for `listing_ignores_viewer_tier`: the concrete listing of
`dbC8` returns 200 and is unchanged when the viewer's tier is swapped for
the Enterprise seed. -/
theorem listing_ignores_viewer_tier_witness :
    (listImages dbC8 reqC8).1 = 200 ∧
    listImages dbC8 { reqC8 with user := { reqC8.user with tier := some seedEnterprise } } =
      listImages dbC8 reqC8 :=
  ⟨(listing_ignores_viewer_tier dbC8 reqC8 rfl).1,
   (listing_ignores_viewer_tier dbC8 reqC8 rfl).2.2 (some seedEnterprise)⟩

/-! ## C9 — duration bounds are declared but not enforced -/

/-- Request fixture for C9: Enterprise-tier user uploading with duration 5,
far below the declared minimum of 300. -/
def reqC9 : Request := reqOf ⟨9, false, some seedEnterprise⟩ (some sampleJpeg) (some 5)

/-- C9: the Enterprise upload path stores whatever duration was supplied
without consulting the validators declared on `Images.expired_time`
(Django runs field validators only in `full_clean()`, which the view never
calls before `save()`): duration 5 violates the declared bound
300 ≤ d ≤ 30000, yet the upload succeeds with 201 and the Media is
persisted with `expired_time = 5`. -/
theorem upload_stores_out_of_bounds_duration :
    (upload emptyDB reqC9 0 "tk").1.status = some 201 ∧
    (upload emptyDB reqC9 0 "tk").2.images.map ImagesRec.expired_time = [some 5] ∧
    expired_time_valid 5 = false := by
  refine ⟨rfl, rfl, rfl⟩

/-! ## C10 — dispatch is on the tier's name, never its flags -/

/-- C10: for an authenticated, valid-payload upload whose tier name is
none of Basic, Premium, Enterprise, the view falls through to the 400
response with body "Expired time is not provided for this image." leaving
the store untouched (no Media, thumbnail or token); and the upload outcome
depends on the tier only through its name — the three capability flags are
never read. -/
theorem unknown_tier_name_fallback :
    (∀ (db : DB) (req : Request) (now : Int) (tok : String) (file : UploadedFile) (t : Tier),
      req.user.isAnonymous = false → req.imageData = some file → acceptedFormat file →
      req.user.tier = some t →
      t.name ≠ "Basic" → t.name ≠ "Premium" → t.name ≠ "Enterprise" →
      upload db req now tok =
        (.resp 400 (.text "Expired time is not provided for this image."), db)) ∧
    (∀ (db : DB) (now : Int) (tok : String) (sch hst : String) (uid : Nat) (anon : Bool)
      (imgd : Option UploadedFile) (et : Option Int) (t t' : Tier), t.name = t'.name →
      upload db ⟨sch, hst, ⟨uid, anon, some t⟩, imgd, et⟩ now tok =
        upload db ⟨sch, hst, ⟨uid, anon, some t'⟩, imgd, et⟩ now tok) := by
  constructor
  · intro db req now tok file t hA hI hF hT hB hP hE
    have hF' : file.contentType = "image/jpeg" ∨ file.contentType = "image/png" := hF
    simp [upload, validation_photo_views, hA, hI, hT, hF', hB, hP, hE]
  · intro db now tok sch hst uid anon imgd et t t' hname
    cases anon <;> cases imgd <;> cases et <;>
      simp [upload, validation_photo_views, create_img_200, create_img_200_400,
        thumb200Url, thumb400Url, mediaUrl, buildAbsoluteUri, hname]

/-- Witness for `unknown_tier_name_fallback`: a `Gold` tier with every
capability flag set still gets the fallback 400, and the seeded Enterprise
tier behaves identically to an `Enterprise`-named tier with all flags
cleared. -/
theorem unknown_tier_name_fallback_witness :
    upload emptyDB (reqOf ⟨3, false, some ⟨"Gold", true, true, true⟩⟩ (some sampleJpeg) (some 3600)) 50 "tk" =
      (.resp 400 (.text "Expired time is not provided for this image."), emptyDB) ∧
    upload emptyDB ⟨"http", "testserver", ⟨9, false, some seedEnterprise⟩, some sampleJpeg, some 60⟩ 0 "tk" =
      upload emptyDB ⟨"http", "testserver", ⟨9, false, some tierEntNoLink⟩, some sampleJpeg, some 60⟩ 0 "tk" :=
  ⟨unknown_tier_name_fallback.1 emptyDB
      (reqOf ⟨3, false, some ⟨"Gold", true, true, true⟩⟩ (some sampleJpeg) (some 3600))
      50 "tk" sampleJpeg ⟨"Gold", true, true, true⟩ rfl rfl (Or.inl rfl) rfl
      (by decide) (by decide) (by decide),
   unknown_tier_name_fallback.2 emptyDB 0 "tk" "http" "testserver" 9 false
      (some sampleJpeg) (some 60) seedEnterprise tierEntNoLink rfl⟩
